import Mathlib

/-!
Verification of the session/correlation engine and catalog cache of the
yomasupplierbot repository: a shallow embedding of the Telegram handler
functions of `products/management/commands/runserver_and_bot.py`, the
`UserProfile` model of `products/models.py`, and the row parser of
`products/sheets_service.py`, together with proofs of the specified
properties.
-/

namespace YomaBot

/-! ## Correlation store

`context.bot_data['admin_customer_mapping']` in the source is a Python
dict mapping an operator-facing message id to the customer's telegram id.
We model the dict as an association list where an insertion
(`mapping[msg_id] = customer_id`, `send_order_to_admin` line 407) prepends
the new binding, and `mapping.get(msg_id)` (`handle_admin_reply` line 111)
returns the most recent binding for the key, `none` when the key is absent. -/

abbrev CorrelationStore := List (Nat × Nat)

/-- `mapping[outboundMsgId] = customerId` (dict item assignment). -/
def record (store : CorrelationStore) (outboundMsgId customerId : Nat) : CorrelationStore :=
  (outboundMsgId, customerId) :: store

/-- `mapping.get(outboundMsgId)`: `some` of the stored customer id, `none` when absent. -/
def lookup (store : CorrelationStore) (outboundMsgId : Nat) : Option Nat :=
  (store.find? (fun p => p.1 == outboundMsgId)).map (fun p => p.2)

/-! ## User profiles (`products/models.py`, class `UserProfile`) -/

structure UserProfile where
  telegram_id : Nat
  telegram_username : String
  first_name : String
  name : String
  phone : String
  address : String
deriving DecidableEq, Repr

/-- The profile store, keyed by `telegram_id` (which is `unique=True` in the model).
Modelled as a list with at most one entry per key. -/
abbrev ProfileStore := List UserProfile

/-- `UserProfile.objects.filter(telegram_id=uid).first()`. -/
def findProfile (store : ProfileStore) (uid : Nat) : Option UserProfile :=
  store.find? (fun q => q.telegram_id == uid)

/-- `UserProfile.objects.update_or_create(telegram_id=..., defaults=...)`:
replace the row with the matching key, or append a new row. -/
def update_or_create (store : ProfileStore) (p : UserProfile) : ProfileStore :=
  if store.any (fun q => q.telegram_id == p.telegram_id) then
    store.map (fun q => if q.telegram_id == p.telegram_id then p else q)
  else store ++ [p]

/-! ## Per-user session state (`context.user_data`)

The bot keeps the registration dialog's step in the loosely typed
`context.user_data` dict. The keys actually read/written by the handlers
are `collecting_info`, `info_step` (one of the strings `name`, `phone`,
`address`, or `None`), the scratch fields `user_name`, `user_phone`,
`user_address`, and the pending-order pointer
`order_product_message_id` / `order_product_chat_id`.
A key that was never set reads as `None` (falsy), hence the `Option`s
and the `Bool` default `false`. -/

inductive InfoStep
  | name
  | phone
  | address
deriving DecidableEq, Repr

structure UserData where
  collecting_info : Bool := false
  info_step : Option InfoStep := none
  user_name : Option String := none
  user_phone : Option String := none
  user_address : Option String := none
  order_product_message_id : Option Nat := none
  order_product_chat_id : Option Nat := none
deriving DecidableEq, Repr

/-- Process configuration: `settings.TELEGRAM_ADMIN_CHAT_ID` (`none` models a
falsy/unset value) and `settings.TELEGRAM_ADMIN_USERNAME`. -/
structure Config where
  admin_chat_id : Option Nat
  admin_username : String
deriving DecidableEq, Repr

/-- `update.effective_user`: `username` and `first_name` may be unset. -/
structure TgUser where
  id : Nat
  username : Option String
  first_name : Option String
deriving DecidableEq, Repr

/-- Messages the handlers send to the customer's chat, one constructor per
distinct `reply_text` / `send_message` / `edit_message_text` call site. -/
inductive CustomerMsg
  | prompt_name
  | prompt_phone
  | prompt_address
  | profile_options (name phone address : String)
  | cancel_notice
  | order_confirmation
  | saved_info_confirmation
  | contact_admin_static (adminUsername : String)
  | forward_error_fallback (adminUsername : String)
  | product_listing (status : String)
  | unknown_text_help
deriving DecidableEq, Repr

/-- Messages delivered to the operator's chat by `send_order_to_admin`. -/
inductive AdminMsg
  | forwarded_product (fromChatId msgId : Nat)
  | order_summary (name phone address : String) (telegram_id : Nat)
deriving DecidableEq, Repr

/-- Observable outcome of one inbound event: the updated session and stores,
the messages sent to the customer and the operator, and the list of
`update_or_create` calls that occurred (in order). -/
structure StepResult where
  userData : UserData
  profiles : ProfileStore
  mapping : CorrelationStore
  customerMsgs : List CustomerMsg
  adminMsgs : List AdminMsg
  upserts : List UserProfile
deriving DecidableEq, Repr

/-! ## `send_order_to_admin` (lines 359-420)

Outbound transport effects are injected: `forwardOk` is the outcome of the
`forward_message` call when one is attempted, and `summaryResult` is the
outcome of the customer-info `send_message` call (`ok` carries the id of the
message the transport assigned, the one later used as correlation key).
A raised exception anywhere inside the `try` block lands in the `except`
branch, which sends the static fallback to the customer. -/

/-- The `if product_msg_id and product_chat_id:` guard, with Python
truthiness: an id of `0` is falsy, so no forward is attempted for it. -/
def forwardAttempted (ud : UserData) : Bool :=
  match ud.order_product_message_id, ud.order_product_chat_id with
  | some m, some c => m != 0 && c != 0
  | _, _ => false

def send_order_to_admin (cfg : Config) (ud : UserData) (profile : Option UserProfile)
    (mapping : CorrelationStore) (forwardOk : Bool) (summaryResult : Except String Nat) :
    UserData × CorrelationStore × List CustomerMsg × List AdminMsg :=
  match cfg.admin_chat_id with
  | none =>
      -- not admin_chat_id: static contact instruction, no delivery attempted
      (ud, mapping, [CustomerMsg.contact_admin_static cfg.admin_username], [])
  | some _ =>
      if forwardAttempted ud && !forwardOk then
        -- forward_message raised: except branch, nothing reached the operator
        (ud, mapping, [CustomerMsg.forward_error_fallback cfg.admin_username], [])
      else
        let fwdMsgs : List AdminMsg :=
          if forwardAttempted ud then
            [AdminMsg.forwarded_product (ud.order_product_chat_id.getD 0)
              (ud.order_product_message_id.getD 0)]
          else []
        match profile with
        | none =>
            -- attribute access on a missing profile raises inside the try block
            (ud, mapping, [CustomerMsg.forward_error_fallback cfg.admin_username], fwdMsgs)
        | some p =>
            match summaryResult with
            | .error _ =>
                -- customer-info send_message raised after the forward succeeded
                (ud, mapping, [CustomerMsg.forward_error_fallback cfg.admin_username], fwdMsgs)
            | .ok summaryMsgId =>
                ({ ud with order_product_message_id := none, order_product_chat_id := none },
                 record mapping summaryMsgId p.telegram_id,
                 [],
                 fwdMsgs ++ [AdminMsg.order_summary p.name p.phone p.address p.telegram_id])

/-! ## `handle_message` (lines 194-269)

Handles a free-text message. When `collecting_info` is set, the text is the
answer to the current registration prompt; completing the address step
upserts the profile, runs `send_order_to_admin`, and sends the order-placed
confirmation. Otherwise the text is matched against the two menu buttons
(`send_products` is abstracted as the `product_listing` message). -/

def handle_message (cfg : Config) (user : TgUser) (text : String) (ud : UserData)
    (profiles : ProfileStore) (mapping : CorrelationStore)
    (forwardOk : Bool) (summaryResult : Except String Nat) : StepResult :=
  if ud.collecting_info then
    match ud.info_step with
    | some InfoStep.name =>
        ⟨{ ud with user_name := some text, info_step := some InfoStep.phone },
          profiles, mapping, [CustomerMsg.prompt_phone], [], []⟩
    | some InfoStep.phone =>
        ⟨{ ud with user_phone := some text, info_step := some InfoStep.address },
          profiles, mapping, [CustomerMsg.prompt_address], [], []⟩
    | some InfoStep.address =>
        let ud1 : UserData :=
          { ud with user_address := some text, info_step := none, collecting_info := false }
        -- the source indexes user_data['user_name'] etc. directly; those keys were
        -- set by the two preceding steps, so `getD ""` only names the same value
        let newProfile : UserProfile :=
          { telegram_id := user.id
            telegram_username := user.username.getD ""
            first_name := user.first_name.getD ""
            name := ud1.user_name.getD ""
            phone := ud1.user_phone.getD ""
            address := text }
        let profiles1 := update_or_create profiles newProfile
        let r := send_order_to_admin cfg ud1 (some newProfile) mapping forwardOk summaryResult
        ⟨r.1, profiles1, r.2.1, r.2.2.1 ++ [CustomerMsg.order_confirmation], r.2.2.2,
          [newProfile]⟩
    | none => handle_menu text ud profiles mapping
  else handle_menu text ud profiles mapping
where
  handle_menu (text : String) (ud : UserData) (profiles : ProfileStore)
      (mapping : CorrelationStore) : StepResult :=
    if text = "📦 In-Stock ပစ္စည်းများ" then
      ⟨ud, profiles, mapping, [CustomerMsg.product_listing "In-Stock"], [], []⟩
    else if text = "🚚 Pre-Order မှာယူနိုင်သောပစ္စည်းများ" then
      ⟨ud, profiles, mapping, [CustomerMsg.product_listing "On The Way"], [], []⟩
    else
      ⟨ud, profiles, mapping, [CustomerMsg.unknown_text_help], [], []⟩

/-! ## `handle_order_callback` (lines 272-356)

Dispatches on the callback payload string: the three control payloads
`use_saved_info`, `update_info`, `cancel_info`, and otherwise the
order-intent payload attached to a product message (`order_<name>`).
`queryMsgId`/`queryChatId` are `query.message.message_id` / `.chat_id`. -/

def handle_order_callback (cfg : Config) (user : TgUser) (data : String)
    (queryMsgId queryChatId : Nat) (ud : UserData) (profiles : ProfileStore)
    (mapping : CorrelationStore) (forwardOk : Bool) (summaryResult : Except String Nat) :
    StepResult :=
  if data = "use_saved_info" then
    let profile := findProfile profiles user.id
    let r := send_order_to_admin cfg ud profile mapping forwardOk summaryResult
    ⟨r.1, profiles, r.2.1, r.2.2.1 ++ [CustomerMsg.saved_info_confirmation], r.2.2.2, []⟩
  else if data = "update_info" then
    ⟨{ ud with collecting_info := true, info_step := some InfoStep.name },
      profiles, mapping, [CustomerMsg.prompt_name], [], []⟩
  else if data = "cancel_info" then
    ⟨{ ud with
        collecting_info := false
        info_step := none
        order_product_message_id := none
        order_product_chat_id := none },
      profiles, mapping, [CustomerMsg.cancel_notice], [], []⟩
  else
    let ud1 : UserData :=
      { ud with
          order_product_message_id := some queryMsgId
          order_product_chat_id := some queryChatId }
    match findProfile profiles user.id with
    | some p =>
        ⟨ud1, profiles, mapping, [CustomerMsg.profile_options p.name p.phone p.address], [], []⟩
    | none =>
        ⟨{ ud1 with collecting_info := true, info_step := some InfoStep.name },
          profiles, mapping, [CustomerMsg.prompt_name], [], []⟩

/-! ## `handle_admin_reply` (lines 96-127)

An inbound reply in a private chat. `customerSends` lists the
`send_message` calls targeting a customer chat (the relay attempts);
whether the attempted delivery succeeded is the injected `delivery`
outcome. `adminReplies` lists the texts sent back to the operator chat. -/

structure AdminReplyResult where
  customerSends : List (Nat × String)
  adminReplies : List String
deriving DecidableEq, Repr

def handle_admin_reply (cfg : Config) (senderChatId : Nat) (isReply : Bool)
    (repliedMsgId : Nat) (text : String) (mapping : CorrelationStore)
    (delivery : Except String Unit) : AdminReplyResult :=
  match cfg.admin_chat_id with
  | none =>
      -- str(chat.id) can never equal the string form of an unset setting
      ⟨[], []⟩
  | some a =>
      if senderChatId != a then ⟨[], []⟩
      else if !isReply then ⟨[], []⟩
      else
        match lookup mapping repliedMsgId with
        | none => ⟨[], ["❌ Could not find the customer for this order."]⟩
        | some customerId =>
            if customerId = 0 then
              -- Python truthiness: `if not customer_id` also fires on 0
              ⟨[], ["❌ Could not find the customer for this order."]⟩
            else
              let relayText :=
                "📩 Message from " ++ cfg.admin_username ++ ":\n\n" ++ text
              match delivery with
              | .ok _ =>
                  ⟨[(customerId, relayText)], ["✅ Message sent to customer!"]⟩
              | .error reason =>
                  ⟨[(customerId, relayText)], ["❌ Failed to send message: " ++ reason]⟩

/-! ## Catalog row parsing (`products/sheets_service.py`, `_fetch_all_products`) -/

structure SheetProduct where
  name : String
  image_link : String
  price : String
  unit : String
  stock_count : String
  status : String
  expiry_date : String
deriving DecidableEq, Repr

/-- Python's `str.strip()`: drop whitespace from both ends. -/
def pyStrip (s : String) : String :=
  ⟨((s.data.dropWhile Char.isWhitespace).reverse.dropWhile Char.isWhitespace).reverse⟩

/-- Python's `str.lstrip('K')`: drop leading `K` characters. -/
def stripLeadingK (s : String) : String :=
  ⟨s.data.dropWhile (fun ch => ch == 'K')⟩

/-- `row[i].strip() if len(row) > i else ""`. -/
def cellAt (row : List String) (i : Nat) : String :=
  pyStrip (row.getD i "")

/-- The per-row field extraction of `_fetch_all_products` (lines 91-112):
fixed column offsets; the wholesale price additionally has leading
K characters stripped (`.lstrip`). -/
def parseRow (row : List String) : SheetProduct :=
  { name := cellAt row 1
    image_link := cellAt row 3
    price := stripLeadingK (cellAt row 5)
    unit := cellAt row 7
    stock_count := cellAt row 11
    status := cellAt row 12
    expiry_date := cellAt row 13 }

/-- The two status groups of `products_by_status`. -/
structure ProductGroups where
  inStock : List SheetProduct
  onTheWay : List SheetProduct
deriving DecidableEq, Repr

/-- The row loop of `_fetch_all_products` (lines 83-116), as structural
recursion producing the rows' products in source order: a row with fewer
than 13 columns or an empty (stripped) name is skipped; otherwise the
product is appended to the group named by its status, and a row whose
status names no group joins no group. -/
def processRows : List (List String) → ProductGroups
  | [] => ⟨[], []⟩
  | row :: rest =>
      let g := processRows rest
      if row.length < 13 then g
      else if (parseRow row).name = "" then g
      else if (parseRow row).status = "In-Stock" then
        ⟨parseRow row :: g.inStock, g.onTheWay⟩
      else if (parseRow row).status = "On The Way" then
        ⟨g.inStock, parseRow row :: g.onTheWay⟩
      else g

/-- `_fetch_all_products` over an injected read of the sheet: `error` models
the paths that signal failure (connection error or a raised exception), `ok`
carries `get_all_values()`; the header row is skipped, and a sheet with at
most one row yields empty groups. -/
def fetch_all_products (fetched : Except String (List (List String))) :
    Option ProductGroups :=
  match fetched with
  | .error _ => none
  | .ok records =>
      some (if records.length ≤ 1 then ⟨[], []⟩ else processRows records.tail)

/-! ## Catalog cache (`GoogleSheetsService`)

The cache fields of `__init__` (lines 24-27): a snapshot and a timestamp,
with a five-minute TTL. Time is modelled in whole seconds. -/

structure CacheState where
  cache : Option ProductGroups
  cache_timestamp : Option Nat
deriving DecidableEq, Repr

/-- `timedelta(minutes=5)` in seconds. -/
def cacheDuration : Nat := 300

/-- `_is_cache_valid` (lines 60-64). -/
def is_cache_valid (st : CacheState) (now : Nat) : Bool :=
  match st.cache_timestamp with
  | none => false
  | some t => now - t < cacheDuration

/-- `products_by_status.get(status, [])` over an optional snapshot. -/
def groupsGet (snapshot : Option ProductGroups) (status : String) : List SheetProduct :=
  match snapshot with
  | none => []
  | some g =>
      if status = "In-Stock" then g.inStock
      else if status = "On The Way" then g.onTheWay
      else []

/-- Modelled from the spec: `GoogleSheetsService.get_products_by_status` is
called by the bot handlers but its definition is absent from the source
tree. Per the spec (section 4.1): if the cache is fresh, answer from the
snapshot without touching the external source; if the cache is absent or
stale, perform exactly one refetch — on success replace the snapshot and
timestamp wholesale, on failure leave the cache at its previous state — and
answer from the resulting snapshot, or an empty sequence when no snapshot
ever succeeded. The third component counts the fetches triggered. -/
def get_products_by_status (st : CacheState) (now : Nat) (status : String)
    (fetched : Except String (List (List String))) :
    CacheState × List SheetProduct × Nat :=
  if is_cache_valid st now then
    (st, groupsGet st.cache status, 0)
  else
    match fetch_all_products fetched with
    | some g =>
        (⟨some g, some now⟩, groupsGet (some g) status, 1)
    | none =>
        (st, groupsGet st.cache status, 1)

/-- Modelled from the spec: `GoogleSheetsService.refresh_cache`, the
force-refresh used by the manual `/refresh` command, is absent from the
source tree. Per the spec (section 4.1) it bypasses the TTL check and
refetches unconditionally; on success the snapshot and timestamp are
replaced, on failure the previous cache state is kept. The second
component counts the fetches triggered. -/
def refresh_cache (st : CacheState) (now : Nat)
    (fetched : Except String (List (List String))) : CacheState × Nat :=
  match fetch_all_products fetched with
  | some g => (⟨some g, some now⟩, 1)
  | none => (st, 1)

/-- The `/refresh` command handler `refresh_cache` of
`runserver_and_bot.py` (lines 163-191): a non-operator caller is rejected
when an operator chat is configured (`if admin_chat_id and ...`); otherwise
the handler announces the refresh, forces one, and reports success. -/
structure RefreshCmdResult where
  replies : List String
  cacheState : CacheState
  fetchCount : Nat
deriving DecidableEq, Repr

def refresh_cache_command (cfg : Config) (userId : Nat) (st : CacheState) (now : Nat)
    (fetched : Except String (List (List String))) : RefreshCmdResult :=
  let proceed : RefreshCmdResult :=
    let r := refresh_cache st now fetched
    ⟨["🔄 Refreshing data from Google Sheets...", "✅ Cache refreshed successfully!"],
      r.1, r.2⟩
  match cfg.admin_chat_id with
  | some a =>
      if userId != a then ⟨["⛔ Only admin can refresh the cache."], st, 0⟩
      else proceed
  | none => proceed

/-! ## Theorems -/

/-- A key that appears in no binding of the store looks up to `none`. -/
theorem lookup_eq_none_of_not_mem (store : CorrelationStore) (k : Nat)
    (hk : k ∉ store.map Prod.fst) : lookup store k = none := by
  induction store with
  | nil => rfl
  | cons p rest ih =>
      rw [List.map_cons, List.mem_cons, not_or] at hk
      unfold lookup
      rw [List.find?_cons_of_neg]
      · exact ih hk.2
      · have hne : p.1 ≠ k := fun h => hk.1 h.symm
        simpa using hne

/-- C1: after `record(m, c)`, looking up `m` returns `c`; looking up an
identifier never recorded returns `none` (the not-found signal), which is
distinct from every valid customer identifier, in particular from a
zero-equivalent one. -/
theorem C1_correlation_roundtrip (store : CorrelationStore) (m c k : Nat)
    (hk : k ∉ (record store m c).map Prod.fst) :
    lookup (record store m c) m = some c ∧
    lookup (record store m c) k = none ∧
    ∀ c' : Nat, lookup (record store m c) k ≠ some c' := by
  refine ⟨?_, lookup_eq_none_of_not_mem _ k hk, ?_⟩
  · simp [lookup, record, List.find?]
  · intro c'
    rw [lookup_eq_none_of_not_mem _ k hk]
    exact fun h => Option.noConfusion h

/-- C1 witness: recording `(42, 7)` in the empty store, `42` looks up to
`7` and the unrecorded `1` looks up to `none`, never to a customer id. -/
theorem C1_correlation_roundtrip_witness :
    lookup (record [] 42 7) 42 = some 7 ∧
    lookup (record [] 42 7) 1 = none ∧
    ∀ c' : Nat, lookup (record [] 42 7) 1 ≠ some c' :=
  C1_correlation_roundtrip [] 42 7 1 (by decide)

/-- C4 counterexample: with the correlation store holding the entry
`(5, 0)`, the replied-to identifier `5` exists in the store, yet an
operator reply to it is not relayed — the handler answers with the
not-found notice instead, because the Python truthiness test
`if not customer_id` also fires on the stored id `0`. -/
theorem C4_reply_routing_counterexample :
    lookup [(5, 0)] 5 = some 0 ∧
    handle_admin_reply ⟨some 99, "op"⟩ 99 true 5 "hi" [(5, 0)] (Except.ok ()) =
      ⟨[], ["❌ Could not find the customer for this order."]⟩ :=
  ⟨rfl, rfl⟩

/-- C4 (amended): an inbound reply is relayed to a customer iff it comes
from the configured operator identity and the replied-to identifier maps
in the correlation store to a nonzero customer identifier; a non-operator
reply produces no relay and no response; an operator reply whose
identifier is absent (or maps to the zero value) produces exactly one
not-found notice to the operator and zero customer sends; a failed
delivery is reported back to the operator with the failure reason. -/
theorem C4_reply_routing (a : Nat) (username : String) (sender : Nat)
    (isReply : Bool) (repliedMsgId : Nat) (text : String)
    (mapping : CorrelationStore) (delivery : Except String Unit) :
    (sender ≠ a →
      handle_admin_reply ⟨some a, username⟩ sender isReply repliedMsgId text mapping
        delivery = ⟨[], []⟩) ∧
    ((handle_admin_reply ⟨some a, username⟩ sender isReply repliedMsgId text mapping
        delivery).customerSends ≠ [] ↔
      sender = a ∧ isReply = true ∧
        ∃ c, lookup mapping repliedMsgId = some c ∧ c ≠ 0) ∧
    (sender = a → isReply = true →
      (lookup mapping repliedMsgId = none ∨ lookup mapping repliedMsgId = some 0) →
      handle_admin_reply ⟨some a, username⟩ sender isReply repliedMsgId text mapping
        delivery = ⟨[], ["❌ Could not find the customer for this order."]⟩) ∧
    (∀ c reason, sender = a → isReply = true →
      lookup mapping repliedMsgId = some c → c ≠ 0 →
      delivery = Except.error reason →
      (handle_admin_reply ⟨some a, username⟩ sender isReply repliedMsgId text mapping
        delivery).adminReplies = ["❌ Failed to send message: " ++ reason]) := by
  by_cases hs : sender = a
  · subst hs
    cases isReply with
    | false => simp [handle_admin_reply]
    | true =>
        cases hl : lookup mapping repliedMsgId with
        | none => simp [handle_admin_reply, hl]
        | some c =>
            by_cases hc : c = 0
            · subst hc
              simp [handle_admin_reply, hl]
              exact fun c' reason h1 h2 => absurd h1.symm h2
            · cases delivery with
              | ok u => simp [handle_admin_reply, hl, hc]
              | error r => simp [handle_admin_reply, hl, hc]
  · have hbne : (sender != a) = true := bne_iff_ne.mpr hs
    simp [handle_admin_reply, hbne, hs]

/-- C4 witness: the operator (chat `99`) replying to message `5`, which
maps to customer `7`, with a successful delivery. -/
theorem C4_reply_routing_witness :
    (99 ≠ 99 →
      handle_admin_reply ⟨some 99, "op"⟩ 99 true 5 "hi" [(5, 7)]
        (Except.ok ()) = ⟨[], []⟩) ∧
    ((handle_admin_reply ⟨some 99, "op"⟩ 99 true 5 "hi" [(5, 7)]
        (Except.ok ())).customerSends ≠ [] ↔
      99 = 99 ∧ true = true ∧ ∃ c, lookup [(5, 7)] 5 = some c ∧ c ≠ 0) ∧
    (99 = 99 → true = true →
      (lookup [(5, 7)] 5 = none ∨ lookup [(5, 7)] 5 = some 0) →
      handle_admin_reply ⟨some 99, "op"⟩ 99 true 5 "hi" [(5, 7)]
        (Except.ok ()) = ⟨[], ["❌ Could not find the customer for this order."]⟩) ∧
    (∀ c reason, 99 = 99 → true = true →
      lookup [(5, 7)] 5 = some c → c ≠ 0 →
      Except.ok () = Except.error reason →
      (handle_admin_reply ⟨some 99, "op"⟩ 99 true 5 "hi" [(5, 7)]
        (Except.ok ())).adminReplies = ["❌ Failed to send message: " ++ reason]) :=
  C4_reply_routing 99 "op" 99 true 5 "hi" [(5, 7)] (Except.ok ())

/-- C3 counterexample: cancelling from `CollectingPhone` with the scratch
name already filled in returns the session to idle but does not discard
the scratch field — `user_name` keeps its value, because the handler only
resets `collecting_info`, `info_step` and the pending-order pointer. -/
theorem C3_cancellation_counterexample :
    (handle_order_callback ⟨some 99, "op"⟩ ⟨7, none, none⟩ "cancel_info" 10 20
        { collecting_info := true, info_step := some InfoStep.phone,
          user_name := some "Aung" }
        [] [] true (Except.ok 1)).userData.user_name = some "Aung" ∧
    (handle_order_callback ⟨some 99, "op"⟩ ⟨7, none, none⟩ "cancel_info" 10 20
        { collecting_info := true, info_step := some InfoStep.phone,
          user_name := some "Aung" }
        [] [] true (Except.ok 1)).userData.collecting_info = false :=
  ⟨rfl, rfl⟩

/-- C3 (amended): from any collecting state, a cancellation event returns
the session to idle and discards the pending-order context; it performs no
profile upsert, creates no correlation entry, sends nothing to the
operator, and leaves the profile store and the correlation store
unchanged. (The scratch fields themselves are retained, not discarded.) -/
theorem C3_cancellation (cfg : Config) (user : TgUser) (qm qc : Nat) (ud : UserData)
    (profiles : ProfileStore) (mapping : CorrelationStore) (fOk : Bool)
    (sRes : Except String Nat) (_h : ud.collecting_info = true) :
    let r := handle_order_callback cfg user "cancel_info" qm qc ud profiles mapping fOk sRes
    r.userData.collecting_info = false ∧ r.userData.info_step = none ∧
    r.userData.order_product_message_id = none ∧
    r.userData.order_product_chat_id = none ∧
    r.upserts = [] ∧ r.profiles = profiles ∧ r.mapping = mapping ∧
    r.adminMsgs = [] ∧ r.customerMsgs = [CustomerMsg.cancel_notice] := by
  have h1 : ("cancel_info" : String) ≠ "use_saved_info" := by decide
  have h2 : ("cancel_info" : String) ≠ "update_info" := by decide
  simp [handle_order_callback, h1, h2]

/-- C3 witness: cancelling from `CollectingName`. -/
theorem C3_cancellation_witness :
    let r := handle_order_callback ⟨some 99, "op"⟩ ⟨7, none, none⟩ "cancel_info" 10 20
      { collecting_info := true, info_step := some InfoStep.name } [] [] true
      (Except.ok 1)
    r.userData.collecting_info = false ∧ r.userData.info_step = none ∧
    r.userData.order_product_message_id = none ∧
    r.userData.order_product_chat_id = none ∧
    r.upserts = [] ∧ r.profiles = [] ∧ r.mapping = [] ∧
    r.adminMsgs = [] ∧ r.customerMsgs = [CustomerMsg.cancel_notice] :=
  C3_cancellation ⟨some 99, "op"⟩ ⟨7, none, none⟩ 10 20
    { collecting_info := true, info_step := some InfoStep.name } [] [] true
    (Except.ok 1) rfl

/-- `send_order_to_admin` never touches the dialog mode: the returned
session keeps the caller's `collecting_info` and `info_step`. -/
theorem send_order_preserves_mode (cfg : Config) (ud : UserData)
    (profile : Option UserProfile) (mapping : CorrelationStore) (fOk : Bool)
    (sRes : Except String Nat) :
    (send_order_to_admin cfg ud profile mapping fOk sRes).1.collecting_info =
      ud.collecting_info ∧
    (send_order_to_admin cfg ud profile mapping fOk sRes).1.info_step = ud.info_step := by
  unfold send_order_to_admin
  rcases cfg with ⟨ac, au⟩
  cases ac with
  | none => exact ⟨rfl, rfl⟩
  | some a =>
      cases hfa : (forwardAttempted ud && !fOk) with
      | true => simp [hfa]
      | false =>
          cases profile with
          | none => simp [hfa]
          | some p =>
              cases sRes with
              | error e => simp [hfa]
              | ok mid => simp [hfa]

/-- C2: for a user with no saved profile, starting from an idle session,
an order-intent callback followed by three text replies (name, phone,
address) ends with the session idle again, with exactly one profile
upsert across the whole run — keyed by the user's identifier and holding
exactly the three supplied values — and with the profile store equal to
the single upsert's effect. -/
theorem C2_registration_flow (cfg : Config) (user : TgUser) (data : String)
    (qm qc : Nat) (ud0 : UserData) (profiles : ProfileStore)
    (mapping : CorrelationStore) (f0 f1 f2 f3 : Bool)
    (s0 s1 s2 s3 : Except String Nat) (nameT phoneT addrT : String)
    (_hidle : ud0.collecting_info = false ∧ ud0.info_step = none)
    (hnoprof : findProfile profiles user.id = none)
    (hd1 : data ≠ "use_saved_info") (hd2 : data ≠ "update_info")
    (hd3 : data ≠ "cancel_info") :
    let r0 := handle_order_callback cfg user data qm qc ud0 profiles mapping f0 s0
    let r1 := handle_message cfg user nameT r0.userData r0.profiles r0.mapping f1 s1
    let r2 := handle_message cfg user phoneT r1.userData r1.profiles r1.mapping f2 s2
    let r3 := handle_message cfg user addrT r2.userData r2.profiles r2.mapping f3 s3
    let expected : UserProfile :=
      { telegram_id := user.id
        telegram_username := user.username.getD ""
        first_name := user.first_name.getD ""
        name := nameT
        phone := phoneT
        address := addrT }
    r3.userData.collecting_info = false ∧ r3.userData.info_step = none ∧
    r0.upserts ++ r1.upserts ++ r2.upserts ++ r3.upserts = [expected] ∧
    r3.profiles = update_or_create profiles expected := by
  simp [handle_order_callback, handle_message, hd1, hd2, hd3, hnoprof,
    send_order_preserves_mode]

/-- C2 witness: the end-to-end scenario of the spec — user `7` with no
profile answers the three prompts with name, phone, address. -/
theorem C2_registration_flow_witness :
    let r0 := handle_order_callback ⟨some 99, "op"⟩ ⟨7, some "mgmg", some "Mg"⟩ "order_x"
      10 20 {} [] [] true (Except.ok 100)
    let r1 := handle_message ⟨some 99, "op"⟩ ⟨7, some "mgmg", some "Mg"⟩ "Mg Mg"
      r0.userData r0.profiles r0.mapping true (Except.ok 101)
    let r2 := handle_message ⟨some 99, "op"⟩ ⟨7, some "mgmg", some "Mg"⟩ "09123"
      r1.userData r1.profiles r1.mapping true (Except.ok 102)
    let r3 := handle_message ⟨some 99, "op"⟩ ⟨7, some "mgmg", some "Mg"⟩ "Yangon"
      r2.userData r2.profiles r2.mapping true (Except.ok 103)
    let expected : UserProfile :=
      { telegram_id := 7
        telegram_username := (some "mgmg").getD ""
        first_name := (some "Mg").getD ""
        name := "Mg Mg"
        phone := "09123"
        address := "Yangon" }
    r3.userData.collecting_info = false ∧ r3.userData.info_step = none ∧
    r0.upserts ++ r1.upserts ++ r2.upserts ++ r3.upserts = [expected] ∧
    r3.profiles = update_or_create [] expected :=
  C2_registration_flow ⟨some 99, "op"⟩ ⟨7, some "mgmg", some "Mg"⟩ "order_x" 10 20 {}
    [] [] true true true true (Except.ok 100) (Except.ok 101) (Except.ok 102)
    (Except.ok 103) "Mg Mg" "09123" "Yangon" ⟨rfl, rfl⟩ rfl
    (by decide) (by decide) (by decide)

/-- The pending-order pointer, and hence the forward guard, is unaffected
by the address-step session update. -/
theorem forwardAttempted_set_address (ud : UserData) (t : String) :
    forwardAttempted
      { ud with user_address := some t, info_step := none, collecting_info := false } =
    forwardAttempted ud := rfl

/-- C9: completing the address step runs the forward-to-operator step:
with no operator channel configured the customer gets the static contact
instruction and nothing reaches the operator; with a channel configured
and working transport, the selected product message is forwarded, a
summary of the saved contact details follows, the summary message's id is
recorded against the customer's id, and the customer is acknowledged; any
failure (failed forward or failed summary send) is caught and the customer
is told to contact the operator directly — the flow never fails visibly. -/
theorem C9_forward_to_operator (cfg : Config) (user : TgUser) (text : String)
    (ud : UserData) (profiles : ProfileStore) (mapping : CorrelationStore)
    (fOk : Bool) (sRes : Except String Nat)
    (hc : ud.collecting_info = true) (hs : ud.info_step = some InfoStep.address) :
    let r := handle_message cfg user text ud profiles mapping fOk sRes
    (cfg.admin_chat_id = none →
      r.customerMsgs = [CustomerMsg.contact_admin_static cfg.admin_username,
        CustomerMsg.order_confirmation] ∧ r.adminMsgs = [] ∧ r.mapping = mapping) ∧
    (∀ a pm pc mid, cfg.admin_chat_id = some a →
      ud.order_product_message_id = some pm → ud.order_product_chat_id = some pc →
      pm ≠ 0 → pc ≠ 0 → fOk = true → sRes = Except.ok mid →
      r.adminMsgs = [AdminMsg.forwarded_product pc pm,
        AdminMsg.order_summary (ud.user_name.getD "") (ud.user_phone.getD "") text
          user.id] ∧
      r.mapping = record mapping mid user.id ∧
      r.customerMsgs = [CustomerMsg.order_confirmation]) ∧
    (∀ a e, cfg.admin_chat_id = some a → sRes = Except.error e →
      r.customerMsgs = [CustomerMsg.forward_error_fallback cfg.admin_username,
        CustomerMsg.order_confirmation]) ∧
    (∀ a, cfg.admin_chat_id = some a → forwardAttempted ud = true → fOk = false →
      r.customerMsgs = [CustomerMsg.forward_error_fallback cfg.admin_username,
        CustomerMsg.order_confirmation]) := by
  refine ⟨?_, ?_, ?_, ?_⟩
  · intro hnone
    simp [handle_message, hc, hs, send_order_to_admin, hnone]
  · intro a pm pc mid ha hpm hpc hpm0 hpc0 hf hsr
    subst hf
    subst hsr
    have hb1 : (pm != 0) = true := by simp [hpm0]
    have hb2 : (pc != 0) = true := by simp [hpc0]
    simp [handle_message, hc, hs, send_order_to_admin, ha, forwardAttempted_set_address,
      forwardAttempted, hpm, hpc, hb1, hb2]
  · intro a e ha hsr
    subst hsr
    cases hfa : forwardAttempted ud with
    | true =>
        cases fOk with
        | true =>
            simp [handle_message, hc, hs, send_order_to_admin, ha,
              forwardAttempted_set_address, hfa]
        | false =>
            simp [handle_message, hc, hs, send_order_to_admin, ha,
              forwardAttempted_set_address, hfa]
    | false =>
        simp [handle_message, hc, hs, send_order_to_admin, ha,
          forwardAttempted_set_address, hfa]
  · intro a ha hfa hf
    subst hf
    simp [handle_message, hc, hs, send_order_to_admin, ha,
      forwardAttempted_set_address, hfa]

/-- C9 witness: operator chat `99` configured, order context `(20, 10)`,
working transport assigning id `100` to the summary message. -/
theorem C9_forward_to_operator_witness :
    let r := handle_message ⟨some 99, "op"⟩ ⟨7, some "mgmg", some "Mg"⟩ "Yangon"
      { collecting_info := true, info_step := some InfoStep.address,
        user_name := some "Mg Mg", user_phone := some "09123",
        order_product_message_id := some 10, order_product_chat_id := some 20 }
      [] [] true (Except.ok 100)
    ((some 99 : Option Nat) = none →
      r.customerMsgs = [CustomerMsg.contact_admin_static "op",
        CustomerMsg.order_confirmation] ∧ r.adminMsgs = [] ∧ r.mapping = []) ∧
    (∀ a pm pc mid, (some 99 : Option Nat) = some a →
      (some 10 : Option Nat) = some pm → (some 20 : Option Nat) = some pc →
      pm ≠ 0 → pc ≠ 0 → true = true →
      (Except.ok 100 : Except String Nat) = Except.ok mid →
      r.adminMsgs = [AdminMsg.forwarded_product pc pm,
        AdminMsg.order_summary ((some "Mg Mg").getD "") ((some "09123").getD "")
          "Yangon" 7] ∧
      r.mapping = record [] mid 7 ∧
      r.customerMsgs = [CustomerMsg.order_confirmation]) ∧
    (∀ (a : Nat) (e : String), (some 99 : Option Nat) = some a →
      (Except.ok 100 : Except String Nat) = Except.error e →
      r.customerMsgs = [CustomerMsg.forward_error_fallback "op",
        CustomerMsg.order_confirmation]) ∧
    (∀ a, (some 99 : Option Nat) = some a →
      forwardAttempted
        { collecting_info := true, info_step := some InfoStep.address,
          user_name := some "Mg Mg", user_phone := some "09123",
          order_product_message_id := some 10, order_product_chat_id := some 20 } =
        true →
      true = false →
      r.customerMsgs = [CustomerMsg.forward_error_fallback "op",
        CustomerMsg.order_confirmation]) :=
  C9_forward_to_operator ⟨some 99, "op"⟩ ⟨7, some "mgmg", some "Mg"⟩ "Yangon"
    { collecting_info := true, info_step := some InfoStep.address,
      user_name := some "Mg Mg", user_phone := some "09123",
      order_product_message_id := some 10, order_product_chat_id := some 20 }
    [] [] true (Except.ok 100) rfl rfl

/-- C10: completing the address step sends the order-placed confirmation
unconditionally — when no operator channel is configured the customer
receives both the static contact instruction and the confirmation, and
when the forward raised an error the customer receives both the error
fallback and the confirmation. -/
theorem C10_confirmation_unconditional (cfg : Config) (user : TgUser) (text : String)
    (ud : UserData) (profiles : ProfileStore) (mapping : CorrelationStore)
    (fOk : Bool) (sRes : Except String Nat)
    (hc : ud.collecting_info = true) (hs : ud.info_step = some InfoStep.address) :
    let r := handle_message cfg user text ud profiles mapping fOk sRes
    CustomerMsg.order_confirmation ∈ r.customerMsgs ∧
    (cfg.admin_chat_id = none →
      r.customerMsgs = [CustomerMsg.contact_admin_static cfg.admin_username,
        CustomerMsg.order_confirmation]) ∧
    (∀ (a : Nat) (e : String), cfg.admin_chat_id = some a → sRes = Except.error e →
      r.customerMsgs = [CustomerMsg.forward_error_fallback cfg.admin_username,
        CustomerMsg.order_confirmation]) ∧
    (∀ (a : Nat), cfg.admin_chat_id = some a → forwardAttempted ud = true →
      fOk = false →
      r.customerMsgs = [CustomerMsg.forward_error_fallback cfg.admin_username,
        CustomerMsg.order_confirmation]) := by
  refine ⟨?_, ?_, ?_, ?_⟩
  · rcases cfg with ⟨ac, au⟩
    cases ac with
    | none => simp [handle_message, hc, hs, send_order_to_admin]
    | some a =>
        cases hfa : forwardAttempted ud with
        | true =>
            cases fOk with
            | false =>
                simp [handle_message, hc, hs, send_order_to_admin,
                  forwardAttempted_set_address, hfa]
            | true =>
                cases sRes with
                | error e =>
                    simp [handle_message, hc, hs, send_order_to_admin,
                      forwardAttempted_set_address, hfa]
                | ok mid =>
                    simp [handle_message, hc, hs, send_order_to_admin,
                      forwardAttempted_set_address, hfa]
        | false =>
            cases sRes with
            | error e =>
                simp [handle_message, hc, hs, send_order_to_admin,
                  forwardAttempted_set_address, hfa]
            | ok mid =>
                simp [handle_message, hc, hs, send_order_to_admin,
                  forwardAttempted_set_address, hfa]
  · intro hnone
    simp [handle_message, hc, hs, send_order_to_admin, hnone]
  · intro a e ha hsr
    subst hsr
    cases hfa : forwardAttempted ud with
    | true =>
        cases fOk with
        | true =>
            simp [handle_message, hc, hs, send_order_to_admin, ha,
              forwardAttempted_set_address, hfa]
        | false =>
            simp [handle_message, hc, hs, send_order_to_admin, ha,
              forwardAttempted_set_address, hfa]
    | false =>
        simp [handle_message, hc, hs, send_order_to_admin, ha,
          forwardAttempted_set_address, hfa]
  · intro a ha hfa hf
    subst hf
    simp [handle_message, hc, hs, send_order_to_admin, ha,
      forwardAttempted_set_address, hfa]

/-- C10 witness: no operator channel configured — the customer receives
the static contact instruction followed by the confirmation. -/
theorem C10_confirmation_unconditional_witness :
    let r := handle_message ⟨none, "op"⟩ ⟨7, some "mgmg", some "Mg"⟩ "Yangon"
      { collecting_info := true, info_step := some InfoStep.address,
        user_name := some "Mg Mg", user_phone := some "09123",
        order_product_message_id := some 10, order_product_chat_id := some 20 }
      [] [] true (Except.ok 100)
    CustomerMsg.order_confirmation ∈ r.customerMsgs ∧
    ((none : Option Nat) = none →
      r.customerMsgs = [CustomerMsg.contact_admin_static "op",
        CustomerMsg.order_confirmation]) ∧
    (∀ (a : Nat) (e : String), (none : Option Nat) = some a →
      (Except.ok 100 : Except String Nat) = Except.error e →
      r.customerMsgs = [CustomerMsg.forward_error_fallback "op",
        CustomerMsg.order_confirmation]) ∧
    (∀ (a : Nat), (none : Option Nat) = some a →
      forwardAttempted
        { collecting_info := true, info_step := some InfoStep.address,
          user_name := some "Mg Mg", user_phone := some "09123",
          order_product_message_id := some 10, order_product_chat_id := some 20 } =
        true →
      true = false →
      r.customerMsgs = [CustomerMsg.forward_error_fallback "op",
        CustomerMsg.order_confirmation]) :=
  C10_confirmation_unconditional ⟨none, "op"⟩ ⟨7, some "mgmg", some "Mg"⟩ "Yangon"
    { collecting_info := true, info_step := some InfoStep.address,
      user_name := some "Mg Mg", user_phone := some "09123",
      order_product_message_id := some 10, order_product_chat_id := some 20 }
    [] [] true (Except.ok 100) rfl rfl

/-- C5 counterexample: a row with exactly 13 columns and a non-empty name
whose status field is neither known status value is placed in no group at
all, not in exactly one. -/
theorem C5_row_grouping_counterexample :
    13 ≤ (["1", "Name", "x", "img", "x", "K100", "x", "pc", "x", "x", "x", "5",
      "Weird"] : List String).length ∧
    (parseRow ["1", "Name", "x", "img", "x", "K100", "x", "pc", "x", "x", "x", "5",
      "Weird"]).name ≠ "" ∧
    processRows [["1", "Name", "x", "img", "x", "K100", "x", "pc", "x", "x", "x", "5",
      "Weird"]] = ⟨[], []⟩ := by
  refine ⟨by decide, by decide, ?_⟩
  rfl

/-- The keep condition of the row loop, for one status group. -/
def rowKept (st : String) (r : List String) : Bool :=
  !(decide (r.length < 13)) && !(decide ((parseRow r).name = "")) &&
    decide ((parseRow r).status = st)

/-- C5 (amended): each status group holds exactly the parses of the rows
with at least 13 columns, a non-empty (stripped) name, and that group's
status value, in source order; a row failing any of the conditions — too
few columns, empty name, or a status matching neither group — contributes
to no group. -/
theorem C5_row_grouping (rows : List (List String)) :
    (processRows rows).inStock = (rows.filter (rowKept "In-Stock")).map parseRow ∧
    (processRows rows).onTheWay = (rows.filter (rowKept "On The Way")).map parseRow := by
  have hne1 : ¬ (("In-Stock" : String) = "On The Way") := by decide
  have hne2 : ¬ (("On The Way" : String) = "In-Stock") := by decide
  induction rows with
  | nil => exact ⟨rfl, rfl⟩
  | cons row rest ih =>
      by_cases h1 : row.length < 13
      · simp [processRows, List.filter_cons, rowKept, h1, ih.1, ih.2]
      · by_cases h2 : (parseRow row).name = ""
        · simp [processRows, List.filter_cons, rowKept, h1, h2, ih.1, ih.2]
        · by_cases h3 : (parseRow row).status = "In-Stock"
          · simp [processRows, List.filter_cons, rowKept, h1, h2, h3, hne1,
              ih.1, ih.2]
          · by_cases h4 : (parseRow row).status = "On The Way"
            · simp [processRows, List.filter_cons, rowKept, h1, h2, h3, h4, hne2,
                ih.1, ih.2]
            · simp [processRows, List.filter_cons, rowKept, h1, h2, h3, h4,
                ih.1, ih.2]

/-- Freshness only depends on the stored timestamp. -/
theorem is_cache_valid_of_fresh (s : CacheState) (t now : Nat)
    (hts : s.cache_timestamp = some t) (h : now - t < cacheDuration) :
    is_cache_valid s now = true := by
  simp [is_cache_valid, hts, h]

/-- C6: a lookup on a stale (or never-filled) cache triggers exactly one
fetch, and a successful fetch at time `t` replaces the snapshot and the
timestamp wholesale; a second lookup within the five-minute TTL triggers
no fetch and leaves the cache state untouched. -/
theorem C6_cache_freshness (st : CacheState) (t now : Nat) (status status2 : String)
    (rows : List (List String)) (f : Except String (List (List String)))
    (hstale : is_cache_valid st t = false) (hfresh : now - t < cacheDuration) :
    let r := get_products_by_status st t status (Except.ok rows)
    r.2.2 = 1 ∧
    r.1.cache = fetch_all_products (Except.ok rows) ∧
    r.1.cache_timestamp = some t ∧
    (get_products_by_status r.1 now status2 f).2.2 = 0 ∧
    (get_products_by_status r.1 now status2 f).1 = r.1 := by
  have key : get_products_by_status st t status (Except.ok rows) =
      (⟨some (if rows.length ≤ 1 then ⟨[], []⟩ else processRows rows.tail), some t⟩,
        groupsGet (some (if rows.length ≤ 1 then ⟨[], []⟩ else processRows rows.tail))
          status, 1) := by
    simp [get_products_by_status, hstale, fetch_all_products]
  have hv2 : is_cache_valid
      (⟨some (if rows.length ≤ 1 then ⟨[], []⟩ else processRows rows.tail),
        some t⟩ : CacheState) now = true :=
    is_cache_valid_of_fresh _ t now rfl hfresh
  refine ⟨by rw [key], by rw [key]; simp [fetch_all_products], by rw [key], ?_, ?_⟩
  · rw [key]
    simp [get_products_by_status, hv2]
  · rw [key]
    simp [get_products_by_status, hv2]

/-- C6 witness: empty cache at time `0`, fetch of a two-row sheet, second
lookup at time `100`. -/
theorem C6_cache_freshness_witness :
    let r := get_products_by_status ⟨none, none⟩ 0 "In-Stock"
      (Except.ok [["h"], ["h"]])
    r.2.2 = 1 ∧
    r.1.cache = fetch_all_products (Except.ok [["h"], ["h"]]) ∧
    r.1.cache_timestamp = some 0 ∧
    (get_products_by_status r.1 100 "On The Way" (Except.error "down")).2.2 = 0 ∧
    (get_products_by_status r.1 100 "On The Way" (Except.error "down")).1 = r.1 :=
  C6_cache_freshness ⟨none, none⟩ 0 100 "In-Stock" "On The Way" [["h"], ["h"]]
    (Except.error "down") rfl (by decide)

/-- C7: when the refetch fails, the cache keeps its previous state, the
lookup answers from the previous snapshot for the requested status, and a
never-filled cache yields the empty sequence; the lookup is a total
function, so no error propagates to the caller. -/
theorem C7_fetch_failure (st : CacheState) (now : Nat) (status reason : String) :
    let r := get_products_by_status st now status (Except.error reason)
    r.1 = st ∧
    r.2.1 = groupsGet st.cache status ∧
    (st.cache = none → r.2.1 = []) := by
  have key : get_products_by_status st now status (Except.error reason) =
      (st, groupsGet st.cache status, if is_cache_valid st now then 0 else 1) := by
    by_cases hv : is_cache_valid st now = true
    · simp [get_products_by_status, hv]
    · simp [get_products_by_status, hv, fetch_all_products]
  refine ⟨by rw [key], by rw [key], fun h => ?_⟩
  rw [key]
  simp [groupsGet, h]

/-- C7 witness: a stale snapshot holding one In-Stock product survives a
failed refetch and keeps answering; the never-filled cache answers `[]`. -/
theorem C7_fetch_failure_witness :
    (let r := get_products_by_status
      ⟨some ⟨[⟨"A", "", "", "", "", "In-Stock", ""⟩], []⟩, some 0⟩ 1000 "In-Stock"
      (Except.error "down")
    r.1 = ⟨some ⟨[⟨"A", "", "", "", "", "In-Stock", ""⟩], []⟩, some 0⟩ ∧
    r.2.1 = groupsGet (some ⟨[⟨"A", "", "", "", "", "In-Stock", ""⟩], []⟩) "In-Stock" ∧
    ((some ⟨[⟨"A", "", "", "", "", "In-Stock", ""⟩], []⟩ : Option ProductGroups) = none →
      r.2.1 = [])) ∧
    (let r2 := get_products_by_status ⟨none, none⟩ 1000 "In-Stock" (Except.error "down")
    r2.1 = ⟨none, none⟩ ∧
    r2.2.1 = groupsGet none "In-Stock" ∧
    ((none : Option ProductGroups) = none → r2.2.1 = [])) :=
  ⟨C7_fetch_failure ⟨some ⟨[⟨"A", "", "", "", "", "In-Stock", ""⟩], []⟩, some 0⟩ 1000
      "In-Stock" "down",
    C7_fetch_failure ⟨none, none⟩ 1000 "In-Stock" "down"⟩

/-- C8: the `/refresh` command from the operator identity forces exactly
one fetch regardless of the TTL state of the cache, replaces the snapshot
and timestamp on success, and reports success to the requester. -/
theorem C8_manual_refresh (cfg : Config) (a userId : Nat) (st : CacheState) (now : Nat)
    (fetched : Except String (List (List String)))
    (hadmin : cfg.admin_chat_id = some a) (huser : userId = a) :
    let r := refresh_cache_command cfg userId st now fetched
    r.fetchCount = 1 ∧
    (∀ rows, fetched = Except.ok rows →
      r.cacheState = ⟨fetch_all_products fetched, some now⟩) ∧
    r.replies = ["🔄 Refreshing data from Google Sheets...",
      "✅ Cache refreshed successfully!"] := by
  subst huser
  rcases cfg with ⟨ac, au⟩
  simp only [Config.mk.injEq] at hadmin ⊢
  subst hadmin
  cases fetched with
  | error e =>
      refine ⟨?_, ?_, ?_⟩
      · simp [refresh_cache_command, refresh_cache, fetch_all_products]
      · intro rows hrows
        exact absurd hrows (fun h => Except.noConfusion h)
      · simp [refresh_cache_command, refresh_cache, fetch_all_products]
  | ok rows =>
      refine ⟨?_, ?_, ?_⟩
      · simp [refresh_cache_command, refresh_cache, fetch_all_products]
      · intro rows2 _
        simp [refresh_cache_command, refresh_cache, fetch_all_products]
      · simp [refresh_cache_command, refresh_cache, fetch_all_products]

/-- C8 witness: operator `99` forces a refresh at time `10` on a cache
that is still fresh (filled at time `9`), and one fetch still happens. -/
theorem C8_manual_refresh_witness :
    let r := refresh_cache_command ⟨some 99, "op"⟩ 99 ⟨some ⟨[], []⟩, some 9⟩ 10
      (Except.ok [["h"], ["h"]])
    r.fetchCount = 1 ∧
    (∀ rows, (Except.ok [["h"], ["h"]] : Except String (List (List String))) =
        Except.ok rows →
      r.cacheState = ⟨fetch_all_products (Except.ok [["h"], ["h"]]), some 10⟩) ∧
    r.replies = ["🔄 Refreshing data from Google Sheets...",
      "✅ Cache refreshed successfully!"] :=
  C8_manual_refresh ⟨some 99, "op"⟩ 99 99 ⟨some ⟨[], []⟩, some 9⟩ 10
    (Except.ok [["h"], ["h"]]) rfl rfl

end YomaBot
